import Mathlib

/-!
Shallow embedding of `clay_lua_bindings.c` (a Lua C module wrapping the Clay
layout engine) together with a spec-derived model of the engine operations the
binding invokes.  The wrapped engine header (`clay.h`) is not part of this
repository; every definition that stands in for engine behaviour carries a doc
comment starting with `Modelled from the spec:`.  All other definitions are
translated directly from `src/clay_lua_bindings.c`.

Modelling conventions:
* C `float`/`double` values are represented by exact rationals (`Rat`); IEEE
  rounding is not modelled (no claim below depends on it).  The single use of
  the C constant `INFINITY` (default sizing max) is represented by `CF.inf`.
* C pointers (`void *`) are represented by `Nat` addresses with `0` for
  `NULL`; the binding's tag trick stores a Lua registry reference `r` as the
  odd address `2*r+1`.
* Lua's registry is an explicit association list; `luaL_ref` allocates the
  next free index, `luaL_unref` removes an index.
* Lua errors raised with `luaL_error` / `lua_error` are modelled with
  `Except String`; `lua_pcall` of a callback is a function returning
  `Except String`.
* `lua_isnumber`/`lua_tonumber` are modelled as recognising only number
  values (Lua's implicit string→number coercion is not modelled; no claim
  exercises it).  Integral narrowing casts (`uint16_t`, `uint32_t`,
  `int16_t`) are modelled with explicit `% 2^w` helpers.
-/

namespace ClayLua

/-- Lua values, discriminated the way the binding discriminates them
(`lua_isnil`, `lua_islightuserdata`, `lua_isnumber`, `lua_istable`,
`lua_toboolean`, ...).  A table is an association list of string keys. -/
inductive LuaValue where
  | nil : LuaValue
  | boolean (b : Bool) : LuaValue
  | num (q : Rat) : LuaValue
  | str (s : String) : LuaValue
  | lightuserdata (p : Nat) : LuaValue
  | table (fields : List (String × LuaValue)) : LuaValue

/-- First binding for key `k` in an association list (Lua tables have unique
keys, so first-match lookup is faithful); missing keys read as `nil`, exactly
as `lua_getfield` pushes `nil` for an absent field. -/
def lookupField : List (String × LuaValue) → String → LuaValue
  | [], _ => .nil
  | (k', v) :: rest, k => if k' = k then v else lookupField rest k

/-- `lua_getfield` on a value: nil for non-tables (the C code always guards
with `lua_istable` before reading fields, so the non-table case is unused). -/
def getField (t : LuaValue) (k : String) : LuaValue :=
  match t with
  | .table fs => lookupField fs k
  | _ => .nil

/-- `lua_istable` -/
def lua_istable : LuaValue → Bool
  | .table _ => true
  | _ => false

/-- `lua_isnil` -/
def lua_isnil : LuaValue → Bool
  | .nil => true
  | _ => false

/-- `lua_islightuserdata` -/
def lua_islightuserdata : LuaValue → Bool
  | .lightuserdata _ => true
  | _ => false

/-- `lua_isnumber` (string→number coercion not modelled) -/
def lua_isnumber : LuaValue → Bool
  | .num _ => true
  | _ => false

/-- `lua_toboolean`: everything but `nil` and `false` is truthy. -/
def lua_toboolean : LuaValue → Bool
  | .nil => false
  | .boolean b => b
  | _ => true

/-- `lua_tonumber` after a `lua_isnumber` guard. -/
def lua_tonumber : LuaValue → Rat
  | .num q => q
  | _ => 0

/-- `lua_tointeger` after a `lua_isnumber` guard (floor; the exact rounding of
non-integral arguments is irrelevant to every claim). -/
def lua_tointeger (v : LuaValue) : Int :=
  (lua_tonumber v).floor

/-- `luaL_optnumber`: default for `nil`/absent, the number itself, or a raised
Lua type error otherwise. -/
def luaL_optnumber (v : LuaValue) (d : Rat) : Except String Rat :=
  match v with
  | .nil => .ok d
  | .num q => .ok q
  | _ => .error "number expected"

/-- `luaL_checknumber` -/
def luaL_checknumber (v : LuaValue) : Except String Rat :=
  match v with
  | .num q => .ok q
  | _ => .error "number expected"

/-- `luaL_checkinteger` -/
def luaL_checkinteger (v : LuaValue) : Except String Int :=
  match v with
  | .num q => .ok q.floor
  | _ => .error "number expected"

/-- `luaL_optinteger` -/
def luaL_optinteger (v : LuaValue) (d : Int) : Except String Int :=
  match v with
  | .nil => .ok d
  | .num q => .ok q.floor
  | _ => .error "number expected"

/-- `(uint32_t)` narrowing cast. -/
def u32 (n : Int) : Nat := (n % 4294967296).toNat

/-- `(uint16_t)` narrowing cast. -/
def u16 (n : Int) : Nat := (n % 65536).toNat

/-- `(int16_t)` narrowing cast. -/
def i16 (n : Int) : Int := (n + 32768) % 65536 - 32768

/-- The Lua registry as used by the binding: `next` is the next free reference
index handed out by `luaL_ref` (references are positive integers), `entries`
the live bindings. -/
structure Registry where
  next : Nat
  entries : List (Nat × LuaValue)

/-- The fresh registry of a new `lua_State`. -/
def Registry.empty : Registry := { next := 1, entries := [] }

/-- `luaL_ref(L, LUA_REGISTRYINDEX)` for a non-nil value: allocate a fresh
reference. -/
def Registry.ref (r : Registry) (v : LuaValue) : Nat × Registry :=
  (r.next, { next := r.next + 1, entries := (r.next, v) :: r.entries })

/-- `lua_rawgeti(L, LUA_REGISTRYINDEX, i)`: nil when the reference is dead. -/
def lookupRef : List (Nat × LuaValue) → Nat → LuaValue
  | [], _ => .nil
  | (k, v) :: rest, i => if k = i then v else lookupRef rest i

/-- `lua_rawgeti` on the registry. -/
def Registry.rawget (r : Registry) (i : Nat) : LuaValue :=
  lookupRef r.entries i

/-- `luaL_unref(L, LUA_REGISTRYINDEX, i)`: drop the binding. -/
def Registry.unref (r : Registry) (i : Nat) : Registry :=
  { r with entries := r.entries.filter (fun e => e.1 != i) }

/-- `clay_is_ref_tag`: bit 0 of the stored pointer marks a boxed registry
reference. -/
def clay_is_ref_tag (p : Nat) : Bool := p % 2 = 1

/-- `clay_ref_from_tag`: strip the tag bit. -/
def clay_ref_from_tag (p : Nat) : Nat := p / 2

/-- `clay_tag_from_ref`: set the tag bit. -/
def clay_tag_from_ref (ref : Nat) : Nat := 2 * ref + 1

/-- `clay_unref_tagged`: release a tagged registry reference held in a
pointer field (no-op for `NULL` and for raw pointers). -/
def clay_unref_tagged (field : Nat) (reg : Registry) : Nat × Registry :=
  if field ≠ 0 ∧ clay_is_ref_tag field then
    (0, reg.unref (clay_ref_from_tag field))
  else
    (field, reg)

/-- `clay_set_ptr_from_lua`: store a Lua value into a `void *` field —
nil ⇒ `NULL`, lightuserdata ⇒ the raw pointer, anything else ⇒ a fresh tagged
registry reference.  A previously stored tagged reference is released first. -/
def clay_set_ptr_from_lua (v : LuaValue) (field : Nat) (reg : Registry) :
    Nat × Registry :=
  let (_, reg) := clay_unref_tagged field reg
  match v with
  | .nil => (0, reg)
  | .lightuserdata p => (p, reg)
  | _ =>
    let (r, reg) := reg.ref v
    (clay_tag_from_ref r, reg)

/-! ### Geometry and declaration structures

These mirror the fields of the `Clay_*` C structures that
`clay_read_element_declaration` writes.  The engine header is not in the
repository, so the structures carry exactly the fields the binding touches.
-/

/-- A C float value that may be the `INFINITY` constant (used only as the
default sizing `max`). -/
inductive CF where
  | fin (q : Rat) : CF
  | inf : CF

/-- `Clay_Vector2` -/
structure Clay_Vector2 where
  x : Rat
  y : Rat

/-- `Clay_Dimensions` -/
structure Clay_Dimensions where
  width : Rat
  height : Rat

/-- `Clay_Color` (RGBA floats) -/
structure Clay_Color where
  r : Rat
  g : Rat
  b : Rat
  a : Rat

/-- `Clay_Padding` (the C fields are `uint16_t`; the binding assigns
`(float)luaL_optnumber(...)` to them and the implicit float→uint16 narrowing
at that assignment is not modelled — no claim depends on it). -/
structure Clay_Padding where
  left : Rat
  right : Rat
  top : Rat
  bottom : Rat

/-- `Clay_CornerRadius` -/
structure Clay_CornerRadius where
  topLeft : Rat
  topRight : Rat
  bottomLeft : Rat
  bottomRight : Rat

/-- `Clay_BorderWidth` (`uint16_t` fields, written via `(uint16_t)luaL_optinteger`). -/
structure Clay_BorderWidth where
  left : Nat
  right : Nat
  top : Nat
  bottom : Nat

/-- Modelled from the spec: the `Clay__SizingType` enumerators exported by the
binding come from the missing engine header; only their distinctness matters
to the claims. -/
def CLAY__SIZING_TYPE_FIT : Int := 0

/-- Modelled from the spec: see `CLAY__SIZING_TYPE_FIT`. -/
def CLAY__SIZING_TYPE_GROW : Int := 1

/-- Modelled from the spec: see `CLAY__SIZING_TYPE_FIT`. -/
def CLAY__SIZING_TYPE_PERCENT : Int := 2

/-- Modelled from the spec: see `CLAY__SIZING_TYPE_FIT`. -/
def CLAY__SIZING_TYPE_FIXED : Int := 3

/-- `Clay_SizingMinMax` -/
structure Clay_SizingMinMax where
  min : Rat
  max : CF

/-- `Clay_SizingAxis`.  The C type holds a union of `minMax` and `percent`;
both are carried here and the `type` tag says which one is meaningful
(spec §3: unused fields are ignored). -/
structure Clay_SizingAxis where
  type : Int
  minMax : Clay_SizingMinMax
  percent : Rat

/-- `Clay_Sizing` -/
structure Clay_Sizing where
  width : Clay_SizingAxis
  height : Clay_SizingAxis

/-- `Clay_ChildAlignment` (enum values kept as raw integers, as the binding
casts them). -/
structure Clay_ChildAlignment where
  x : Int
  y : Int

/-- `Clay_LayoutConfig` (`childGap` is `uint16_t` in C, assigned from a float
cast; narrowing not modelled). -/
structure Clay_LayoutConfig where
  layoutDirection : Int
  childGap : Rat
  childAlignment : Clay_ChildAlignment
  padding : Clay_Padding
  sizing : Clay_Sizing

/-- `Clay_BorderElementConfig` -/
structure Clay_BorderElementConfig where
  color : Clay_Color
  width : Clay_BorderWidth

/-- `Clay_ClipElementConfig` -/
structure Clay_ClipElementConfig where
  horizontal : Bool
  vertical : Bool
  childOffset : Clay_Vector2

/-- `Clay_FloatingElementConfig` (attach points and modes kept as raw
integers, as the binding casts the Lua numbers). -/
structure Clay_FloatingElementConfig where
  offset : Clay_Vector2
  expand : Clay_Dimensions
  parentId : Nat
  zIndex : Int
  attachPointElement : Int
  attachPointParent : Int
  pointerCaptureMode : Int
  attachTo : Int
  clipTo : Int

/-- `Clay_ElementDeclaration`, restricted to the fields the binding reads and
writes.  `imageData`, `customData` and `userData` are the three `void *`
payload fields; `aspect` is `aspectRatio.aspectRatio` in C. -/
structure Clay_ElementDeclaration where
  layout : Clay_LayoutConfig
  backgroundColor : Clay_Color
  cornerRadius : Clay_CornerRadius
  border : Clay_BorderElementConfig
  imageData : Nat
  aspect : Rat
  clip : Clay_ClipElementConfig
  floating : Clay_FloatingElementConfig
  customData : Nat
  userData : Nat

/-- The all-zero `Clay_SizingAxis` (C zero initialisation). -/
def zeroSizingAxis : Clay_SizingAxis :=
  { type := 0, minMax := { min := 0, max := CF.fin 0 }, percent := 0 }

/-- The all-zero `Clay_ElementDeclaration` (`*decl = (Clay_ElementDeclaration){0}`). -/
def zeroDeclaration : Clay_ElementDeclaration :=
  { layout :=
      { layoutDirection := 0
        childGap := 0
        childAlignment := { x := 0, y := 0 }
        padding := { left := 0, right := 0, top := 0, bottom := 0 }
        sizing := { width := zeroSizingAxis, height := zeroSizingAxis } }
    backgroundColor := { r := 0, g := 0, b := 0, a := 0 }
    cornerRadius := { topLeft := 0, topRight := 0, bottomLeft := 0, bottomRight := 0 }
    border :=
      { color := { r := 0, g := 0, b := 0, a := 0 }
        width := { left := 0, right := 0, top := 0, bottom := 0 } }
    imageData := 0
    aspect := 0
    clip := { horizontal := false, vertical := false, childOffset := { x := 0, y := 0 } }
    floating :=
      { offset := { x := 0, y := 0 }
        expand := { width := 0, height := 0 }
        parentId := 0
        zIndex := 0
        attachPointElement := 0
        attachPointParent := 0
        pointerCaptureMode := 0
        attachTo := 0
        clipTo := 0 }
    customData := 0
    userData := 0 }

/-- Modelled from the spec: `CLAY_LAYOUT_DEFAULT` is the engine header's
default layout configuration.  Its exact contents never matter below: both
calling conventions install the same value, which is all the theorems use. -/
def CLAY_LAYOUT_DEFAULT : Clay_LayoutConfig := zeroDeclaration.layout

/-- The declaration both `l_Clay_CreateElement` and `l_Clay_ConfigureElement`
start from: zero-initialised with the default layout. -/
def defaultDeclaration : Clay_ElementDeclaration :=
  { zeroDeclaration with layout := CLAY_LAYOUT_DEFAULT }

/-! ### Spec-modelled engine state

`clay.h` is not part of the repository.  The engine operations the binding
calls (`Clay__OpenElementWithId`, `Clay__ConfigureOpenElement`,
`Clay__CloseElement`, `Clay_GetScrollOffset`, `Clay_UpdateScrollContainers`,
`Clay_GetScrollContainerData`, `Clay_GetElementData`, the id hashes) are
modelled from spec §4.3 (element tree builder state machine), §4.5
(scroll/clip state tracker), §4.2 (identifier hashing) and §6 (query
surface). -/

/-- `Clay_ElementId` — `{id, offset, baseId}` as read/written by the binding
(`stringId` is read and discarded by `clay_check_element_id`). -/
structure ElementId where
  id : Nat
  offset : Nat
  baseId : Nat

/-- A closed element of the per-frame tree (spec §3 `LayoutElement`). -/
inductive ETree where
  | node (eid : ElementId) (decl : Clay_ElementDeclaration) (children : List ETree) : ETree

/-- An entry of the open-element stack: the element's id, its currently
configured declaration and its already-closed children (newest first). -/
structure OpenEntry where
  eid : ElementId
  decl : Clay_ElementDeclaration
  kids : List ETree

/-- `Clay_BoundingBox` -/
structure Clay_BoundingBox where
  x : Rat
  y : Rat
  width : Rat
  height : Rat

/-- Modelled from the spec: one persistent scroll-container record
(spec §3 `ScrollContainerData`, mirrored by the fields
`Clay__ScrollContainerDataInternal` exposes to the binding in
`l_Clay_SetScrollOffset`). -/
structure ScrollContainer where
  elementId : Nat
  scrollPosition : Clay_Vector2
  scrollContainerDimensions : Clay_Dimensions
  contentDimensions : Clay_Dimensions
  horizontal : Bool
  vertical : Bool
  childOffset : Clay_Vector2
  openThisFrame : Bool

/-- Modelled from the spec: the engine state visible through the binding —
the open-element stack and closed roots (§4.3), the persistent scroll map
(§4.5) and the per-frame resolved bounding boxes behind `Clay_GetElementData`
(§6). -/
structure EngineState where
  openStack : List OpenEntry
  roots : List ETree
  scrollContainerDatas : List ScrollContainer
  elementData : List (Nat × Clay_BoundingBox)

/-- Modelled from the spec (§4.3): `Clay__OpenElementWithId` pushes a new
node, configured with the engine defaults, onto the open-element stack. -/
def Clay__OpenElementWithId (eid : ElementId) (s : EngineState) : EngineState :=
  { s with openStack := { eid := eid, decl := defaultDeclaration, kids := [] } :: s.openStack }

/-- Modelled from the spec (§4.3): `Clay__ConfigureOpenElement` attaches the
declaration to the stack-top node (later calls overwrite).  Configuring with
an empty stack is a usage error; per §7 the release policy degrades
gracefully, modelled as a no-op. -/
def Clay__ConfigureOpenElement (d : Clay_ElementDeclaration) (s : EngineState) : EngineState :=
  match s.openStack with
  | [] => s
  | e :: rest => { s with openStack := { e with decl := d } :: rest }

/-- Modelled from the spec (§4.3): `Clay__CloseElement` pops the stack; the
popped node becomes a child of the new stack top (or a root).  Closing with
an empty stack is a usage error, modelled as a no-op (§7 release policy). -/
def Clay__CloseElement (s : EngineState) : EngineState :=
  match s.openStack with
  | [] => s
  | e :: rest =>
    let t := ETree.node e.eid e.decl e.kids.reverse
    match rest with
    | [] => { s with openStack := [], roots := s.roots ++ [t] }
    | p :: ps => { s with openStack := { p with kids := t :: p.kids } :: ps }

/-- Modelled from the spec (§4.5): `Clay_GetScrollOffset` reads the current
offset of the currently open clipping container being declared — the
innermost open element that has a persistent scroll record; zero when there
is none. -/
def Clay_GetScrollOffset (s : EngineState) : Clay_Vector2 :=
  match s.openStack.findSome?
      (fun e => (s.scrollContainerDatas.find? (fun c => c.elementId == e.eid.id)).map
        (fun c => c.scrollPosition)) with
  | some v => v
  | none => { x := 0, y := 0 }

/-- Modelled from the spec (§4.3): `Clay__GetParentElementId` is the numeric
id of the currently open parent element (0 with nothing open). -/
def Clay__GetParentElementId (s : EngineState) : Nat :=
  match s.openStack with
  | [] => 0
  | e :: _ => e.eid.id

/-! ### `clay_read_element_declaration`

Translated section by section (the C function is one long sequence of
comment-delimited field readers).  Sections that call `luaL_optnumber` /
`luaL_checkinteger` / `luaL_optinteger` can raise a Lua type error and are
`Except`-valued; the image/custom/userData sections cannot raise. -/

/-- `luaL_optnumber` with the C `INFINITY` constant as the default
(`readSizingAxisFromLua`, `max` field). -/
def luaL_optnumberInfinity (v : LuaValue) : Except String CF :=
  match v with
  | .nil => .ok CF.inf
  | .num q => .ok (CF.fin q)
  | _ => .error "number expected"

/-- `readSizingAxisFromLua`: reads `type` (required integer), then the
union member selected by it, updating the caller-supplied axis in place. -/
def readSizingAxisFromLua (t : LuaValue) (out : Clay_SizingAxis) :
    Except String Clay_SizingAxis := do
  let ty ← luaL_checkinteger (getField t "type")
  let out := { out with type := ty }
  if ty = CLAY__SIZING_TYPE_FIXED ∨ ty = CLAY__SIZING_TYPE_FIT ∨ ty = CLAY__SIZING_TYPE_GROW then
    match getField t "minMax" with
    | .table mfs => do
      let mn ← luaL_optnumber (lookupField mfs "min") 0
      let mx ← luaL_optnumberInfinity (lookupField mfs "max")
      pure { out with minMax := { min := mn, max := mx } }
    | _ => pure { out with minMax := { min := 0, max := CF.inf } }
  else if ty = CLAY__SIZING_TYPE_PERCENT then do
    let p ← luaL_optnumber (getField t "percent") 100
    pure { out with percent := p }
  else
    pure out

/-- The repeated colour-reading pattern of the declaration reader:
`r`, `g`, `b` default to 0 and `a` defaults to 255; a non-table leaves the
current colour untouched. -/
def readColorTable (v : LuaValue) (c : Clay_Color) : Except String Clay_Color :=
  match v with
  | .table cfs => do
    let r ← luaL_optnumber (lookupField cfs "r") 0
    let g ← luaL_optnumber (lookupField cfs "g") 0
    let b ← luaL_optnumber (lookupField cfs "b") 0
    let a ← luaL_optnumber (lookupField cfs "a") 255
    pure { r := r, g := g, b := b, a := a }
  | _ => pure c

/-- The `---- layout ----` section. -/
def readLayoutSection (tbl : LuaValue) (d : Clay_ElementDeclaration) :
    Except String Clay_ElementDeclaration :=
  match getField tbl "layout" with
  | .table fs => do
    let layout := d.layout
    let vDir := lookupField fs "layoutDirection"
    let layout := if lua_isnumber vDir then
        { layout with layoutDirection := lua_tointeger vDir } else layout
    let vGap := lookupField fs "childGap"
    let layout := if lua_isnumber vGap then
        { layout with childGap := lua_tonumber vGap } else layout
    let layout := match lookupField fs "childAlignment" with
      | .table afs =>
        let vx := lookupField afs "x"
        let layout := if lua_isnumber vx then
            { layout with childAlignment := { layout.childAlignment with x := lua_tointeger vx } }
          else layout
        let vy := lookupField afs "y"
        if lua_isnumber vy then
          { layout with childAlignment := { layout.childAlignment with y := lua_tointeger vy } }
        else layout
      | _ => layout
    let layout ← match lookupField fs "padding" with
      | .table pfs => do
        let l ← luaL_optnumber (lookupField pfs "left") 0
        let r ← luaL_optnumber (lookupField pfs "right") 0
        let t ← luaL_optnumber (lookupField pfs "top") 0
        let b ← luaL_optnumber (lookupField pfs "bottom") 0
        pure { layout with padding := { left := l, right := r, top := t, bottom := b } }
      | _ => pure layout
    let layout ← match lookupField fs "sizing" with
      | .table sfs => do
        let vw := lookupField sfs "width"
        let w ← match vw with
          | .table _ => readSizingAxisFromLua vw layout.sizing.width
          | .num q => pure { layout.sizing.width with
              type := CLAY__SIZING_TYPE_FIXED
              minMax := { min := q, max := CF.fin q } }
          | _ => pure layout.sizing.width
        let vh := lookupField sfs "height"
        let h ← match vh with
          | .table _ => readSizingAxisFromLua vh layout.sizing.height
          | .num q => pure { layout.sizing.height with
              type := CLAY__SIZING_TYPE_FIXED
              minMax := { min := q, max := CF.fin q } }
          | _ => pure layout.sizing.height
        pure { layout with sizing := { width := w, height := h } }
      | _ => pure layout
    pure { d with layout := layout }
  | _ => pure d

/-- The `---- backgroundColor ----` section. -/
def readBackgroundColorSection (tbl : LuaValue) (d : Clay_ElementDeclaration) :
    Except String Clay_ElementDeclaration := do
  let c ← readColorTable (getField tbl "backgroundColor") d.backgroundColor
  pure { d with backgroundColor := c }

/-- The `---- cornerRadius ----` section. -/
def readCornerRadiusSection (tbl : LuaValue) (d : Clay_ElementDeclaration) :
    Except String Clay_ElementDeclaration :=
  match getField tbl "cornerRadius" with
  | .table cfs => do
    let tl ← luaL_optnumber (lookupField cfs "topLeft") 0
    let tr ← luaL_optnumber (lookupField cfs "topRight") 0
    let bl ← luaL_optnumber (lookupField cfs "bottomLeft") 0
    let br ← luaL_optnumber (lookupField cfs "bottomRight") 0
    pure { d with cornerRadius :=
      { topLeft := tl, topRight := tr, bottomLeft := bl, bottomRight := br } }
  | _ => pure d

/-- The `---- border ----` section. -/
def readBorderSection (tbl : LuaValue) (d : Clay_ElementDeclaration) :
    Except String Clay_ElementDeclaration :=
  match getField tbl "border" with
  | .table bfs => do
    let c ← readColorTable (lookupField bfs "color") d.border.color
    let w ← match lookupField bfs "width" with
      | .table wfs => do
        let l ← luaL_optinteger (lookupField wfs "left") 0
        let r ← luaL_optinteger (lookupField wfs "right") 0
        let t ← luaL_optinteger (lookupField wfs "top") 0
        let b ← luaL_optinteger (lookupField wfs "bottom") 0
        pure { left := u16 l, right := u16 r, top := u16 t, bottom := u16 b :
          Clay_BorderWidth }
      | _ => pure d.border.width
    pure { d with border := { color := c, width := w } }
  | _ => pure d

/-- The `---- image ----` section: lightuserdata is stored raw, any other
non-nil value is boxed as a tagged registry reference.  No Lua error can be
raised here. -/
def readImageSection (tbl : LuaValue) (d : Clay_ElementDeclaration) (reg : Registry) :
    Clay_ElementDeclaration × Registry :=
  match getField tbl "image" with
  | .table ifs =>
    match lookupField ifs "imageData" with
    | .lightuserdata p => ({ d with imageData := p }, reg)
    | .nil => ({ d with imageData := 0 }, reg)
    | v =>
      let (r, reg) := reg.ref v
      ({ d with imageData := clay_tag_from_ref r }, reg)
  | _ => (d, reg)

/-- The `---- aspectRatio ----` section: accepts either a table with an inner
`aspectRatio` number or a bare number. -/
def readAspectSection (tbl : LuaValue) (d : Clay_ElementDeclaration) :
    Clay_ElementDeclaration :=
  match getField tbl "aspectRatio" with
  | .table afs =>
    let v := lookupField afs "aspectRatio"
    if lua_isnumber v then { d with aspect := lua_tonumber v } else d
  | v => if lua_isnumber v then { d with aspect := lua_tonumber v } else d

/-- The `---- clip ----` section: reads `horizontal`/`vertical` as booleans;
an explicit `childOffset` table is read field-wise, otherwise — when clipping
on either axis — the offset defaults to the engine's current scroll offset
(`Clay_GetScrollOffset`). -/
def readClipSection (tbl : LuaValue) (eng : EngineState) (d : Clay_ElementDeclaration) :
    Except String Clay_ElementDeclaration :=
  match getField tbl "clip" with
  | .table cfs => do
    let h := lua_toboolean (lookupField cfs "horizontal")
    let v := lua_toboolean (lookupField cfs "vertical")
    let d := { d with clip := { d.clip with horizontal := h, vertical := v } }
    match lookupField cfs "childOffset" with
    | .table ofs => do
      let x ← luaL_optnumber (lookupField ofs "x") 0
      let y ← luaL_optnumber (lookupField ofs "y") 0
      pure { d with clip := { d.clip with childOffset := { x := x, y := y } } }
    | _ =>
      if h || v then
        pure { d with clip := { d.clip with childOffset := Clay_GetScrollOffset eng } }
      else
        pure d
  | _ => pure d

/-- The field updates of the `---- floating ----` section (the section writes
only `decl->floating`; this helper makes that explicit). -/
def readFloatingConfig (ffs : List (String × LuaValue))
    (fl0 : Clay_FloatingElementConfig) : Except String Clay_FloatingElementConfig := do
    let fl := fl0
    let fl ← match lookupField ffs "offset" with
      | .table ofs => do
        let x ← luaL_optnumber (lookupField ofs "x") 0
        let y ← luaL_optnumber (lookupField ofs "y") 0
        pure { fl with offset := { x := x, y := y } }
      | _ => pure fl
    let fl ← match lookupField ffs "expand" with
      | .table efs => do
        let w ← luaL_optnumber (lookupField efs "width") 0
        let h ← luaL_optnumber (lookupField efs "height") 0
        pure { fl with expand := { width := w, height := h } }
      | _ => pure fl
    let vp := lookupField ffs "parentId"
    let fl := if lua_isnumber vp then { fl with parentId := u32 (lua_tointeger vp) } else fl
    let vz := lookupField ffs "zIndex"
    let fl := if lua_isnumber vz then { fl with zIndex := i16 (lua_tointeger vz) } else fl
    let fl := match lookupField ffs "attachPoints" with
      | .table apfs =>
        let ve := lookupField apfs "element"
        let fl := if lua_isnumber ve then
            { fl with attachPointElement := lua_tointeger ve } else fl
        let vq := lookupField apfs "parent"
        if lua_isnumber vq then { fl with attachPointParent := lua_tointeger vq } else fl
      | _ => fl
    let vm := lookupField ffs "pointerCaptureMode"
    let fl := if lua_isnumber vm then
        { fl with pointerCaptureMode := lua_tointeger vm } else fl
    let va := lookupField ffs "attachTo"
    let fl := if lua_isnumber va then { fl with attachTo := lua_tointeger va } else fl
    let vc := lookupField ffs "clipTo"
    let fl := if lua_isnumber vc then { fl with clipTo := lua_tointeger vc } else fl
    pure fl

/-- The `---- floating ----` section. -/
def readFloatingSection (tbl : LuaValue) (d : Clay_ElementDeclaration) :
    Except String Clay_ElementDeclaration :=
  match getField tbl "floating" with
  | .table ffs => do
    let fl ← readFloatingConfig ffs d.floating
    pure { d with floating := fl }
  | _ => pure d

/-- The `---- custom ----` section: same boxing discipline as the image
section, for `custom.customData`. -/
def readCustomSection (tbl : LuaValue) (d : Clay_ElementDeclaration) (reg : Registry) :
    Clay_ElementDeclaration × Registry :=
  match getField tbl "custom" with
  | .table cfs =>
    match lookupField cfs "customData" with
    | .lightuserdata p => ({ d with customData := p }, reg)
    | .nil => ({ d with customData := 0 }, reg)
    | v =>
      let (r, reg) := reg.ref v
      ({ d with customData := clay_tag_from_ref r }, reg)
  | _ => (d, reg)

/-- The `---- userData ----` section.  The C code only acts inside an outer
`lua_islightuserdata` check (whose inner re-check always takes the
lightuserdata arm again), so any non-lightuserdata value — table, string,
boolean, even nil — leaves `decl->userData` at its zero initialisation. -/
def readUserDataSection (tbl : LuaValue) (d : Clay_ElementDeclaration) :
    Clay_ElementDeclaration :=
  match getField tbl "userData" with
  | .lightuserdata p => { d with userData := p }
  | _ => d

/-- `clay_read_element_declaration`: defaults, then the sections in source
order.  `eng` is the engine state consulted (read-only) by the clip section's
`Clay_GetScrollOffset` call; `reg` is threaded through the two boxing
sections. -/
def clay_read_element_declaration (tbl : LuaValue) (eng : EngineState) (reg : Registry) :
    Except String (Clay_ElementDeclaration × Registry) := do
  let d := defaultDeclaration
  let d ← readLayoutSection tbl d
  let d ← readBackgroundColorSection tbl d
  let d ← readCornerRadiusSection tbl d
  let d ← readBorderSection tbl d
  let (d, reg) := readImageSection tbl d reg
  let d := readAspectSection tbl d
  let d ← readClipSection tbl eng d
  let d ← readFloatingSection tbl d
  let (d, reg) := readCustomSection tbl d reg
  let d := readUserDataSection tbl d
  pure (d, reg)

/-! ### Element creation and management wrappers -/

/-- The binding-visible mutable state: the engine, the Lua registry, and the
`clay__last_id` cache. -/
structure BindingState where
  engine : EngineState
  registry : Registry
  lastId : ElementId

/-- `clay_check_element_id`: reads `id` (required), `offset` and `baseId`
(optional) from an id table; `stringId` is read and discarded.  A non-table
raises `luaL_error`. -/
def clay_check_element_id (v : LuaValue) : Except String ElementId :=
  match v with
  | .table fs => do
    let idn ← luaL_checkinteger (lookupField fs "id")
    let off ← luaL_optinteger (lookupField fs "offset") 0
    let base ← luaL_optinteger (lookupField fs "baseId") 0
    pure { id := u32 idn, offset := u32 off, baseId := u32 base }
  | _ => .error "expected id table from clay.id()"

/-- A raised Lua error as observed at the module boundary: `luaL_error`
unwinds the Lua stack with a message, but every mutation of the Clay engine
state made before the raise persists (the engine is process-global in C).
The error therefore carries the binding state as it is at the moment of the
raise. -/
abbrev LuaRaise := String × BindingState

/-- `l_Clay_OpenElement` (`clay.open`): check the id table, open the element.
A bad id table raises with the state untouched. -/
def l_Clay_OpenElement (idTbl : LuaValue) (st : BindingState) :
    Except LuaRaise BindingState :=
  match clay_check_element_id idTbl with
  | .error e => .error (e, st)
  | .ok eid => .ok { st with engine := Clay__OpenElementWithId eid st.engine }

/-- `l_Clay_ConfigureElement` (`clay.configure`): build a default declaration,
read the table (when one is given) with the engine state as it is now, and
apply it to the open element.  A type error raised inside the reader leaves
the engine state unchanged (the reader never mutates the engine; registry
references it may have allocated before the raise are not tracked on the
error path — no claim concerns them). -/
def l_Clay_ConfigureElement (declArg : LuaValue) (st : BindingState) :
    Except LuaRaise BindingState :=
  if lua_istable declArg then
    match clay_read_element_declaration declArg st.engine st.registry with
    | .error e => .error (e, st)
    | .ok (decl, reg) =>
      .ok { st with engine := Clay__ConfigureOpenElement decl st.engine, registry := reg }
  else
    .ok { st with engine := Clay__ConfigureOpenElement defaultDeclaration st.engine }

/-- `l_Clay_CloseElement` (`clay.close`). -/
def l_Clay_CloseElement (st : BindingState) : BindingState :=
  { st with engine := Clay__CloseElement st.engine }

/-- `l_Clay_CreateElement` (`clay.createElement`): open with the checked id,
read-and-configure the declaration (the table is read only after the open),
run the children callback under `lua_pcall`, close.  When the callback
raises, the C code calls `Clay__CloseElement()` and then re-raises via
`luaL_error("createElement callback failed:...")` — so the raised error
carries the state with the element closed and the wrapped message. -/
def l_Clay_CreateElement (idTbl declArg : LuaValue)
    (childrenFn : Option (BindingState → Except LuaRaise BindingState))
    (st : BindingState) : Except LuaRaise BindingState :=
  match clay_check_element_id idTbl with
  | .error e => .error (e, st)
  | .ok eid =>
    let st := { st with engine := Clay__OpenElementWithId eid st.engine }
    let cfg : Except LuaRaise BindingState :=
      if lua_istable declArg then
        match clay_read_element_declaration declArg st.engine st.registry with
        | .error e => .error (e, st)
        | .ok (decl, reg) =>
          .ok { st with engine := Clay__ConfigureOpenElement decl st.engine, registry := reg }
      else
        .ok { st with engine := Clay__ConfigureOpenElement defaultDeclaration st.engine }
    match cfg with
    | .error e => .error e
    | .ok st =>
      match childrenFn with
      | none => .ok { st with engine := Clay__CloseElement st.engine }
      | some f =>
        match f st with
        | .error (e, s) =>
          .error ("createElement callback failed:\n" ++ e,
            { s with engine := Clay__CloseElement s.engine })
        | .ok s => .ok { s with engine := Clay__CloseElement s.engine }

/-- The children step of the explicit calling convention: call the callback
when one was supplied.  A raising callback propagates its raise (with
whatever state mutations it made); nothing closes the element. -/
def runChildren (childrenFn : Option (BindingState → Except LuaRaise BindingState))
    (st : BindingState) : Except LuaRaise BindingState :=
  match childrenFn with
  | none => .ok st
  | some f => f st

/-! ### Identifier hashing (`clay.id`) -/

/-- Modelled from the spec (§4.2): one FNV-1a-style folding step over a
32-bit accumulator. -/
def fnvFold (h b : Nat) : Nat := ((h ^^^ b) * 16777619) % 4294967296

/-- Modelled from the spec (§4.2): deterministic accumulation over the
label's characters. -/
def hashLabel (label : String) : Nat :=
  label.data.foldl (fun h c => fnvFold h c.toNat) 2166136261

/-- Modelled from the spec (§4.2): `Clay__HashString` — hash of the label,
folded with the seed when the seed is nonzero (`clay.h` is not in the
repository; only determinism in exactly (label, seed) matters below). -/
def Clay__HashString (label : String) (seed : Nat) : ElementId :=
  let base := hashLabel label
  let h := if seed ≠ 0 then fnvFold base seed else base
  { id := h, offset := 0, baseId := seed }

/-- Modelled from the spec (§4.2): `Clay__HashStringWithOffset` — the label
hash folded with the numeric index, then with the seed when nonzero. -/
def Clay__HashStringWithOffset (label : String) (off seed : Nat) : ElementId :=
  let base := fnvFold (hashLabel label) off
  let h := if seed ≠ 0 then fnvFold base seed else base
  { id := h, offset := off, baseId := seed }

/-- `l_Clay_Id` (`clay.id(label[, index[, isLocal]])`): borrow the label
string, read the optional index and local flag, hash — with the current open
parent's id as seed in local mode — and cache the result in `clay__last_id`. -/
def l_Clay_Id (labelArg indexArg isLocalArg : LuaValue) (st : BindingState) :
    Except String (ElementId × BindingState) := do
  let label ← match labelArg with
    | .str s => pure s
    | _ => .error "string expected"
  let index := u32 (← luaL_optinteger indexArg 0)
  let isLocal := lua_toboolean isLocalArg
  let eid :=
    if index > 0 then
      Clay__HashStringWithOffset label index
        (if isLocal then Clay__GetParentElementId st.engine else 0)
    else
      Clay__HashString label
        (if isLocal then Clay__GetParentElementId st.engine else 0)
  pure (eid, { st with lastId := eid })

/-! ### Fluent element builder (clip-offset defaulting path) -/

/-- `LuaClayElementBuilder` -/
structure LuaClayElementBuilder where
  decl : Clay_ElementDeclaration
  active : Bool
  configured : Bool
  clipOffsetExplicit : Bool

/-- `elem_builder_detach_ptrs`: after the declaration is configured into the
engine, ownership of tagged refs transfers; the builder's copies are nulled. -/
def elem_builder_detach_ptrs (b : LuaClayElementBuilder) : LuaClayElementBuilder :=
  { b with decl := { b.decl with userData := 0, imageData := 0, customData := 0 } }

/-- `elem_builder_configure_if_needed`: on the first configure, default the
clip child offset to the engine's current scroll offset when clipping is on
and no explicit offset was set, then apply the declaration and detach the
pointer fields. -/
def elem_builder_configure_if_needed (b : LuaClayElementBuilder) (eng : EngineState) :
    LuaClayElementBuilder × EngineState :=
  if b.configured then (b, eng)
  else
    let b :=
      if (b.decl.clip.horizontal || b.decl.clip.vertical) && !b.clipOffsetExplicit then
        { b with decl := { b.decl with clip :=
          { b.decl.clip with childOffset := Clay_GetScrollOffset eng } } }
      else b
    let eng := Clay__ConfigureOpenElement b.decl eng
    (elem_builder_detach_ptrs { b with configured := true }, eng)

/-- `l_Elem_childOffset` (`builder:childOffset(x, y)`): the only setter that
marks the clip offset explicit. -/
def l_Elem_childOffset (b : LuaClayElementBuilder) (xv yv : LuaValue) :
    Except String LuaClayElementBuilder := do
  let x ← luaL_checknumber xv
  let y ← luaL_checknumber yv
  pure { b with
    decl := { b.decl with clip := { b.decl.clip with childOffset := { x := x, y := y } } }
    clipOffsetExplicit := true }

/-! ### Measure-text bridge -/

/-- `Clay_TextElementConfig`, restricted to the members the bridge forwards. -/
structure Clay_TextElementConfig where
  textColor : Clay_Color
  fontId : Nat
  fontSize : Nat
  letterSpacing : Nat
  lineHeight : Nat
  wrapMode : Int
  textAlignment : Int

/-- `Clay_StringSlice`: the (non-NUL-terminated) text and its length. -/
structure Clay_StringSlice where
  chars : String

/-- Length of a string slice (`s.length` in C). -/
def Clay_StringSlice.length (s : Clay_StringSlice) : Nat := s.chars.length

/-- A registered Lua measure callback: receives the text and the config and
either raises (pcall failure) or returns the two Lua results
(width, height) — possibly non-numeric. -/
def MeasureCallback : Type :=
  String → Clay_TextElementConfig → Except String (LuaValue × LuaValue)

/-- `Bridge_MeasureTextFunction`: with no registered callback
(`g_MeasureTextRef == LUA_NOREF`) the naive monospace fallback
`width = length * fontSize, height = fontSize`; with a callback, pcall it —
on error print to stderr and return `{0,0}`, on success read the two numeric
results (non-numbers stay 0) and coerce non-positive axes to 1. -/
def Bridge_MeasureTextFunction (measureRef : Option MeasureCallback)
    (s : Clay_StringSlice) (cfg : Clay_TextElementConfig) : Clay_Dimensions :=
  match measureRef with
  | none =>
    { width := (s.length * cfg.fontSize : Nat), height := (cfg.fontSize : Nat) }
  | some f =>
    match f s.chars cfg with
    | .error _ => { width := 0, height := 0 }
    | .ok (wv, hv) =>
      let height := if lua_isnumber hv then lua_tonumber hv else 0
      let width := if lua_isnumber wv then lua_tonumber wv else 0
      let width := if width ≤ 0 then 1 else width
      let height := if height ≤ 0 then 1 else height
      { width := width, height := height }

/-! ### Scroll containers -/

/-- Per-axis clamp of a scroll position (spec §4.5/§8): into
`[-(max 0 (content - container)), 0]`. -/
def clampAxis (content container pos : Rat) : Rat :=
  min 0 (max (-(max 0 (content - container))) pos)

/-- Modelled from the spec (§4.5, §8): after `Clay_UpdateScrollContainers`
every container's scroll position is clamped per axis against its content and
container dimensions; with drag scrolling enabled the frame's delta is first
applied to the containers open this frame. -/
def Clay_UpdateScrollContainers (enableDrag : Bool) (delta : Clay_Vector2) (_dt : Rat)
    (s : EngineState) : EngineState :=
  { s with scrollContainerDatas := s.scrollContainerDatas.map (fun c =>
      let c :=
        if enableDrag && c.openThisFrame then
          { c with scrollPosition :=
            { x := c.scrollPosition.x + delta.x, y := c.scrollPosition.y + delta.y } }
        else c
      { c with scrollPosition :=
        { x := clampAxis c.contentDimensions.width c.scrollContainerDimensions.width
                 c.scrollPosition.x
          y := clampAxis c.contentDimensions.height c.scrollContainerDimensions.height
                 c.scrollPosition.y } }) }

/-- `l_Clay_UpdateScrollContainers` (`clay.updateScrollContainers`): reads a
boolean and three numbers and forwards them to the engine. -/
def l_Clay_UpdateScrollContainers (enableArg dxArg dyArg dtArg : LuaValue)
    (s : EngineState) : Except String EngineState := do
  let enable := lua_toboolean enableArg
  let dx ← luaL_checknumber dxArg
  let dy ← luaL_checknumber dyArg
  let dt ← luaL_checknumber dtArg
  pure (Clay_UpdateScrollContainers enable { x := dx, y := dy } dt s)

/-- The loop body of `l_Clay_SetScrollOffset`: find the first container whose
`elementId` matches and overwrite its scroll position verbatim, marking it
open this frame; `break` after the first hit. -/
def setScrollOffsetList (idv : Nat) (x y : Rat) :
    List ScrollContainer → List ScrollContainer
  | [] => []
  | c :: rest =>
    if c.elementId = idv then
      { c with scrollPosition := { x := x, y := y }, openThisFrame := true } :: rest
    else
      c :: setScrollOffsetList idv x y rest

/-- `l_Clay_SetScrollOffset` (`clay.setScrollOffset(id, x, y)`): writes the
given offset directly into the engine's internal scroll position — no
clamping happens here. -/
def l_Clay_SetScrollOffset (idTbl xv yv : LuaValue) (s : EngineState) :
    Except String EngineState := do
  let eid ← clay_check_element_id idTbl
  let x ← luaL_optnumber xv 0
  let y ← luaL_optnumber yv 0
  pure { s with scrollContainerDatas := setScrollOffsetList eid.id x y s.scrollContainerDatas }

/-! ### Query surface -/

/-- Modelled from the spec (§3, §6): the `Clay_ScrollContainerData` struct
returned by the engine query — `found` plus the container's current data. -/
structure Clay_ScrollContainerData where
  found : Bool
  scrollPosition : Clay_Vector2
  scrollContainerDimensions : Clay_Dimensions
  contentDimensions : Clay_Dimensions
  horizontal : Bool
  vertical : Bool
  childOffset : Clay_Vector2

/-- Modelled from the spec (§4.5, §6): `Clay_GetScrollContainerData` looks the
id up in the persistent scroll map; `found := false` (with zeroed data) when
the id names no scroll container. -/
def Clay_GetScrollContainerData (eid : ElementId) (s : EngineState) :
    Clay_ScrollContainerData :=
  match s.scrollContainerDatas.find? (fun c => c.elementId == eid.id) with
  | some c =>
    { found := true
      scrollPosition := c.scrollPosition
      scrollContainerDimensions := c.scrollContainerDimensions
      contentDimensions := c.contentDimensions
      horizontal := c.horizontal
      vertical := c.vertical
      childOffset := c.childOffset }
  | none =>
    { found := false
      scrollPosition := { x := 0, y := 0 }
      scrollContainerDimensions := { width := 0, height := 0 }
      contentDimensions := { width := 0, height := 0 }
      horizontal := false
      vertical := false
      childOffset := { x := 0, y := 0 } }

/-- `l_Clay_GetScrollContainerData` (`clay.getScrollContainerData(id)`):
returns `nil` when the engine reports `found == false`; otherwise a table
with `scrollPosition`, `scrollContainerDimensions`, `contentDimensions`,
`config` and `found`. -/
def l_Clay_GetScrollContainerData (idTbl : LuaValue) (s : EngineState) :
    Except String LuaValue := do
  let eid ← clay_check_element_id idTbl
  let data := Clay_GetScrollContainerData eid s
  if !data.found then
    pure .nil
  else
    pure (.table
      [("scrollPosition", .table
          [("x", .num data.scrollPosition.x), ("y", .num data.scrollPosition.y)]),
       ("scrollContainerDimensions", .table
          [("width", .num data.scrollContainerDimensions.width),
           ("height", .num data.scrollContainerDimensions.height)]),
       ("contentDimensions", .table
          [("width", .num data.contentDimensions.width),
           ("height", .num data.contentDimensions.height)]),
       ("config", .table
          [("horizontal", .boolean data.horizontal),
           ("vertical", .boolean data.vertical),
           ("childOffset", .table
              [("x", .num data.childOffset.x), ("y", .num data.childOffset.y)])]),
       ("found", .boolean data.found)])

/-- Modelled from the spec (§6): `Clay_GetElementData` — resolved bounding box
for the id, `found := false` (zero box) when the frame declared no such
element. -/
def Clay_GetElementData (eid : ElementId) (s : EngineState) :
    Clay_BoundingBox × Bool :=
  match s.elementData.find? (fun e => e.1 == eid.id) with
  | some e => (e.2, true)
  | none => ({ x := 0, y := 0, width := 0, height := 0 }, false)

/-- `l_Clay_GetElementData` (`clay.getElementData(id)`): always a table with
the bounding-box fields and `found`. -/
def l_Clay_GetElementData (idTbl : LuaValue) (s : EngineState) :
    Except String LuaValue := do
  let eid ← clay_check_element_id idTbl
  let (box, found) := Clay_GetElementData eid s
  pure (.table
    [("x", .num box.x), ("y", .num box.y),
     ("width", .num box.width), ("height", .num box.height),
     ("found", .boolean found)])

/-! ### Error reporting -/

/-- `Clay_ErrorData`: the error type and text the engine hands to the
installed handler. -/
structure Clay_ErrorData where
  errorType : Nat
  errorText : String

/-- `ClayErrorPrinter`: the error handler `l_Clay_Initialize` installs.  It
formats the error text to stderr and returns; its switch on `errorType` has
no cases.  Its result type is the printed stderr line — it cannot raise a
Lua error. -/
def ClayErrorPrinter (err : Clay_ErrorData) : String :=
  "[Clay Error] " ++ err.errorText ++ "\n"

/-! ### Render-command payload accessors -/

/-- `Clay_RenderCommandType` -/
inductive RenderCommandType where
  | none | rectangle | border | text | image | scissorStart | scissorEnd | custom

/-- `Clay_RenderCommand`, restricted to the type tag and the three `void *`
payload fields the accessors read (`renderData.image.imageData`,
`renderData.custom.customData`, `userData`). -/
structure Clay_RenderCommand where
  commandType : RenderCommandType
  imageData : Nat
  customData : Nat
  userData : Nat

/-- `l_ClayCmd_ImageData` (`cmd:imageData()`): no result for non-image
commands; nil for a NULL payload; for a tagged payload, push the boxed value,
release the reference and null the stored pointer (one-shot); otherwise push
the stored pointer as lightuserdata. -/
def l_ClayCmd_ImageData (cmd : Clay_RenderCommand) (reg : Registry) :
    Option (LuaValue × Clay_RenderCommand × Registry) :=
  match cmd.commandType with
  | .image =>
    let p := cmd.imageData
    if p = 0 then some (.nil, cmd, reg)
    else if clay_is_ref_tag p then
      let ref := clay_ref_from_tag p
      some (reg.rawget ref, { cmd with imageData := 0 }, reg.unref ref)
    else
      some (.lightuserdata p, cmd, reg)
  | _ => Option.none

/-- `l_ClayCmd_CustomData` (`cmd:customData()`): same discipline for custom
commands. -/
def l_ClayCmd_CustomData (cmd : Clay_RenderCommand) (reg : Registry) :
    Option (LuaValue × Clay_RenderCommand × Registry) :=
  match cmd.commandType with
  | .custom =>
    let p := cmd.customData
    if p = 0 then some (.nil, cmd, reg)
    else if clay_is_ref_tag p then
      let ref := clay_ref_from_tag p
      some (reg.rawget ref, { cmd with customData := 0 }, reg.unref ref)
    else
      some (.lightuserdata p, cmd, reg)
  | _ => Option.none

/-- `l_ClayCmd_UserData` (`cmd:userData()`): same discipline, for any command
type (no type guard in the C function). -/
def l_ClayCmd_UserData (cmd : Clay_RenderCommand) (reg : Registry) :
    LuaValue × Clay_RenderCommand × Registry :=
  let p := cmd.userData
  if p = 0 then (.nil, cmd, reg)
  else if clay_is_ref_tag p then
    let ref := clay_ref_from_tag p
    (reg.rawget ref, { cmd with userData := 0 }, reg.unref ref)
  else
    (.lightuserdata p, cmd, reg)

/-! ### Sample concrete states (used by witness and counterexample theorems) -/

/-- An engine with nothing declared. -/
def engine0 : EngineState :=
  { openStack := [], roots := [], scrollContainerDatas := [], elementData := [] }

/-- A scroll container with content height 1000 inside a 200-high viewport
(clamp range `[-800, 0]` on y). -/
def sampleContainer : ScrollContainer :=
  { elementId := 42
    scrollPosition := { x := 0, y := 0 }
    scrollContainerDimensions := { width := 100, height := 200 }
    contentDimensions := { width := 100, height := 1000 }
    horizontal := false
    vertical := true
    childOffset := { x := 0, y := 0 }
    openThisFrame := true }

/-- An engine holding `sampleContainer`. -/
def engine1 : EngineState :=
  { engine0 with scrollContainerDatas := [sampleContainer] }

/-- An engine in which element 42 — the scroll container, scrolled to
`(-3, -5)` — is currently open. -/
def engineOpen : EngineState :=
  { engine0 with
    openStack := [{ eid := { id := 42, offset := 0, baseId := 0 }
                    decl := defaultDeclaration, kids := [] }]
    scrollContainerDatas :=
      [{ sampleContainer with scrollPosition := { x := -3, y := -5 } }] }

/-- An empty binding state. -/
def st0 : BindingState :=
  { engine := engine0, registry := Registry.empty
    lastId := { id := 0, offset := 0, baseId := 0 } }

/-- A binding state differing from `st0` only in the `clay__last_id` cache. -/
def st0b : BindingState :=
  { st0 with lastId := { id := 7, offset := 0, baseId := 0 } }

/-- The id table `clay.id` would produce for element 42. -/
def idTable42 : LuaValue := .table [("id", .num 42)]

/-- The binding state reached from `st0` by `open(idTable42); configure(nil)`:
element 42 is open and configured with the defaults. -/
def stMid42 : BindingState :=
  { engine := (Clay__ConfigureOpenElement defaultDeclaration
      (Clay__OpenElementWithId { id := 42, offset := 0, baseId := 0 } engine0))
    registry := Registry.empty
    lastId := { id := 0, offset := 0, baseId := 0 } }

/-- A sample text slice for the measure-bridge witnesses. -/
def sampleSlice : Clay_StringSlice := { chars := "ab" }

/-- A sample text configuration (fontSize 16). -/
def sampleTextConfig : Clay_TextElementConfig :=
  { textColor := { r := 255, g := 255, b := 255, a := 255 }
    fontId := 1, fontSize := 16, letterSpacing := 0, lineHeight := 0
    wrapMode := 0, textAlignment := 0 }

/-! ## Theorems -/

/-! ### Shared helper lemmas -/

/-- Looking up a reference after filtering it out yields nil. -/
theorem lookupRef_filter_self (l : List (Nat × LuaValue)) (i : Nat) :
    lookupRef (l.filter (fun e => e.1 != i)) i = .nil := by
  induction l with
  | nil => rfl
  | cons e rest ih =>
    by_cases h : e.1 = i
    · simpa [List.filter_cons, h] using ih
    · simp [List.filter_cons, h, lookupRef, ih]

/-- `luaL_unref` really kills the reference: a subsequent `lua_rawgeti` sees
nil. -/
theorem rawget_unref_self (r : Registry) (i : Nat) :
    (r.unref i).rawget i = .nil :=
  lookupRef_filter_self r.entries i

/-- What `clay_set_ptr_from_lua` does to a non-nil, non-lightuserdata value:
box it under the next free reference and tag the pointer. -/
theorem clay_set_ptr_from_lua_boxes (v : LuaValue) (reg : Registry)
    (hlight : lua_islightuserdata v = false) (hnil : lua_isnil v = false) :
    clay_set_ptr_from_lua v 0 reg =
      (clay_tag_from_ref reg.next,
        { next := reg.next + 1, entries := (reg.next, v) :: reg.entries }) := by
  cases v <;>
    simp_all [clay_set_ptr_from_lua, clay_unref_tagged, Registry.ref,
      lua_islightuserdata, lua_isnil]

/-- `clampAxis` lands in `[-(max 0 (content - container)), 0]`. -/
theorem clampAxis_bounds (content container pos : Rat) :
    -(max 0 (content - container)) ≤ clampAxis content container pos ∧
    clampAxis content container pos ≤ 0 := by
  unfold clampAxis
  exact ⟨le_min (neg_nonpos.mpr (le_max_left 0 _)) (le_max_left _ _), min_le_left 0 _⟩

/-! ### C3 — monospace fallback -/

/-- C3: with no registered measure-text callback, the bridge returns
`width = length * fontSize` and `height = fontSize` for every slice and
configuration. -/
theorem measure_fallback_monospace (s : Clay_StringSlice) (cfg : Clay_TextElementConfig) :
    (Bridge_MeasureTextFunction Option.none s cfg).width =
      (s.length : Rat) * (cfg.fontSize : Rat) ∧
    (Bridge_MeasureTextFunction Option.none s cfg).height = (cfg.fontSize : Rat) := by
  constructor <;> simp [Bridge_MeasureTextFunction]

/-! ### C9 — measure-callback result coercion -/

/-- C9 counterexample: a callback returning width `1/2` (a positive
non-integral number) has that value forwarded unchanged, so the forwarded
width is not "at least 1.0". -/
theorem measure_callback_fractional_cex :
    (Bridge_MeasureTextFunction
        (some (fun _ _ => .ok (.num (1/2), .num 2))) sampleSlice sampleTextConfig).width
      = 1/2 ∧
    ¬ ((1 : Rat) ≤ 1/2) := by
  constructor
  · norm_num [Bridge_MeasureTextFunction, lua_isnumber, lua_tonumber]
  · norm_num

/-- C9 (amended): when the callback raises, the bridge returns `{0,0}`
without raising; when it returns successfully, the forwarded dimensions are
strictly positive, and a non-numeric or non-positive width (resp. height) is
coerced to exactly 1.0 — but a fractional positive value below 1.0 is
forwarded as-is. -/
theorem measure_callback_coercion (f : MeasureCallback) (s : Clay_StringSlice)
    (cfg : Clay_TextElementConfig) :
    (∀ e, f s.chars cfg = .error e →
        Bridge_MeasureTextFunction (some f) s cfg = { width := 0, height := 0 }) ∧
    (∀ wv hv, f s.chars cfg = .ok (wv, hv) →
        0 < (Bridge_MeasureTextFunction (some f) s cfg).width ∧
        0 < (Bridge_MeasureTextFunction (some f) s cfg).height ∧
        ((lua_isnumber wv = false ∨ lua_tonumber wv ≤ 0) →
          (Bridge_MeasureTextFunction (some f) s cfg).width = 1) ∧
        ((lua_isnumber hv = false ∨ lua_tonumber hv ≤ 0) →
          (Bridge_MeasureTextFunction (some f) s cfg).height = 1)) := by
  constructor
  · intro e he
    simp [Bridge_MeasureTextFunction, he]
  · intro wv hv hok
    simp only [Bridge_MeasureTextFunction, hok]
    refine ⟨?_, ?_, ?_, ?_⟩
    · split_ifs <;> simp_all
    · split_ifs <;> simp_all
    · intro h
      rcases h with h | h <;> split_ifs <;> simp_all
    · intro h
      rcases h with h | h <;> split_ifs <;> simp_all

/-- C9 witness: a concrete callback returning a non-numeric width and a
negative height; both axes are coerced to 1, and an erroring callback yields
`{0,0}`. -/
theorem measure_callback_coercion_witness :
    ((fun (_ : String) (_ : Clay_TextElementConfig) =>
        (.ok (.str "oops", .num (-4)) : Except String (LuaValue × LuaValue)))
      sampleSlice.chars sampleTextConfig = .ok (.str "oops", .num (-4))) ∧
    (Bridge_MeasureTextFunction
        (some (fun _ _ => .ok (.str "oops", .num (-4)))) sampleSlice sampleTextConfig).width = 1 ∧
    (Bridge_MeasureTextFunction
        (some (fun _ _ => .ok (.str "oops", .num (-4)))) sampleSlice sampleTextConfig).height = 1 := by
  refine ⟨rfl, ?_, ?_⟩
  · exact ((measure_callback_coercion (fun _ _ => .ok (.str "oops", .num (-4)))
      sampleSlice sampleTextConfig).2 (.str "oops") (.num (-4)) rfl).2.2.1 (Or.inl rfl)
  · exact ((measure_callback_coercion (fun _ _ => .ok (.str "oops", .num (-4)))
      sampleSlice sampleTextConfig).2 (.str "oops") (.num (-4)) rfl).2.2.2
      (Or.inr (by norm_num [lua_tonumber]))

/-! ### C2 — one-shot payload reads -/

/-- C2 counterexample: the accessors discriminate boxed references from raw
pointers by bit 0 of the stored address, so a raw lightuserdata pointer with
an odd address (here `3`) — stored verbatim by `clay_set_ptr_from_lua` — is
misread as registry reference 1: the first `cmd:imageData()` does not return
the pointer (on an empty registry it returns nil, after unref-ing ref 1 and
nulling the field). -/
theorem payload_odd_lightuserdata_cex :
    clay_set_ptr_from_lua (.lightuserdata 3) 0 Registry.empty = (3, Registry.empty) ∧
    l_ClayCmd_ImageData
        { commandType := .image, imageData := 3, customData := 0, userData := 0 }
        Registry.empty ≠
      some (.lightuserdata 3,
        { commandType := .image, imageData := 3, customData := 0, userData := 0 },
        Registry.empty) := by
  constructor
  · rfl
  · intro h
    simp [l_ClayCmd_ImageData, clay_is_ref_tag, clay_ref_from_tag, Registry.rawget,
      Registry.empty, lookupRef, Registry.unref] at h

/-- C2 (amended): a payload boxed from a non-lightuserdata value is returned
by the first accessor call, which releases the registry reference and nulls
the stored pointer; every later call on the same command returns nil.  A raw
lightuserdata pointer with an even address is returned unchanged by every
call (state untouched, hence repeatable); an odd lightuserdata address is
indistinguishable from the tag and is misread (see the counterexample).
Stated for all three accessors (`imageData`, `customData`, `userData`). -/
theorem payload_accessors_one_shot (v : LuaValue) (reg0 : Registry)
    (cmd : Clay_RenderCommand) (q : Nat)
    (hlight : lua_islightuserdata v = false) (hnil : lua_isnil v = false)
    (hq0 : q ≠ 0) (hqeven : q % 2 = 0) :
    (cmd.commandType = .image →
      cmd.imageData = (clay_set_ptr_from_lua v 0 reg0).1 →
      l_ClayCmd_ImageData cmd (clay_set_ptr_from_lua v 0 reg0).2 =
        some (v, { cmd with imageData := 0 },
          ((clay_set_ptr_from_lua v 0 reg0).2).unref reg0.next) ∧
      (((clay_set_ptr_from_lua v 0 reg0).2).unref reg0.next).rawget reg0.next = .nil ∧
      l_ClayCmd_ImageData { cmd with imageData := 0 }
          (((clay_set_ptr_from_lua v 0 reg0).2).unref reg0.next) =
        some (.nil, { cmd with imageData := 0 },
          ((clay_set_ptr_from_lua v 0 reg0).2).unref reg0.next)) ∧
    (cmd.commandType = .custom →
      cmd.customData = (clay_set_ptr_from_lua v 0 reg0).1 →
      l_ClayCmd_CustomData cmd (clay_set_ptr_from_lua v 0 reg0).2 =
        some (v, { cmd with customData := 0 },
          ((clay_set_ptr_from_lua v 0 reg0).2).unref reg0.next) ∧
      l_ClayCmd_CustomData { cmd with customData := 0 }
          (((clay_set_ptr_from_lua v 0 reg0).2).unref reg0.next) =
        some (.nil, { cmd with customData := 0 },
          ((clay_set_ptr_from_lua v 0 reg0).2).unref reg0.next)) ∧
    (cmd.userData = (clay_set_ptr_from_lua v 0 reg0).1 →
      l_ClayCmd_UserData cmd (clay_set_ptr_from_lua v 0 reg0).2 =
        (v, { cmd with userData := 0 },
          ((clay_set_ptr_from_lua v 0 reg0).2).unref reg0.next) ∧
      l_ClayCmd_UserData { cmd with userData := 0 }
          (((clay_set_ptr_from_lua v 0 reg0).2).unref reg0.next) =
        (.nil, { cmd with userData := 0 },
          ((clay_set_ptr_from_lua v 0 reg0).2).unref reg0.next)) ∧
    (cmd.commandType = .image → cmd.imageData = q →
      l_ClayCmd_ImageData cmd reg0 = some (.lightuserdata q, cmd, reg0)) ∧
    (cmd.commandType = .custom → cmd.customData = q →
      l_ClayCmd_CustomData cmd reg0 = some (.lightuserdata q, cmd, reg0)) ∧
    (cmd.userData = q →
      l_ClayCmd_UserData cmd reg0 = (.lightuserdata q, cmd, reg0)) := by
  have hset := clay_set_ptr_from_lua_boxes v reg0 hlight hnil
  have htag : clay_tag_from_ref reg0.next % 2 = 1 := by
    simp [clay_tag_from_ref]; omega
  have htag0 : clay_tag_from_ref reg0.next ≠ 0 := by
    simp [clay_tag_from_ref]
  have href : clay_ref_from_tag (clay_tag_from_ref reg0.next) = reg0.next := by
    simp [clay_tag_from_ref, clay_ref_from_tag]; omega
  have hrawget :
      (({ next := reg0.next + 1,
          entries := (reg0.next, v) :: reg0.entries } : Registry)).rawget reg0.next = v := by
    simp [Registry.rawget, lookupRef]
  obtain ⟨ct, im, cu, ud⟩ := cmd
  refine ⟨?_, ?_, ?_, ?_, ?_, ?_⟩
  · rintro rfl rfl
    refine ⟨?_, rawget_unref_self _ _, ?_⟩ <;>
      simp [l_ClayCmd_ImageData, hset, htag0, htag, clay_is_ref_tag, href, hrawget]
  · rintro rfl rfl
    refine ⟨?_, ?_⟩ <;>
      simp [l_ClayCmd_CustomData, hset, htag0, htag, clay_is_ref_tag, href, hrawget]
  · rintro rfl
    refine ⟨?_, ?_⟩ <;>
      simp [l_ClayCmd_UserData, hset, htag0, htag, clay_is_ref_tag, href, hrawget]
  · rintro rfl rfl
    simp [l_ClayCmd_ImageData, hq0, clay_is_ref_tag, hqeven]
  · rintro rfl rfl
    simp [l_ClayCmd_CustomData, hq0, clay_is_ref_tag, hqeven]
  · rintro rfl
    simp [l_ClayCmd_UserData, hq0, clay_is_ref_tag, hqeven]

/-- C2 witness: a boxed string payload on an image command is returned once
and then nil; an even raw pointer (address 8) is returned repeatably. -/
theorem payload_accessors_one_shot_witness :
    (lua_islightuserdata (.str "pix") = false ∧ lua_isnil (.str "pix") = false ∧
      (8 : Nat) ≠ 0 ∧ (8 : Nat) % 2 = 0) ∧
    l_ClayCmd_ImageData
        { commandType := .image
          imageData := (clay_set_ptr_from_lua (.str "pix") 0 Registry.empty).1
          customData := 0, userData := 8 }
        (clay_set_ptr_from_lua (.str "pix") 0 Registry.empty).2 =
      some (.str "pix",
        { commandType := .image, imageData := 0, customData := 0, userData := 8 },
        ((clay_set_ptr_from_lua (.str "pix") 0 Registry.empty).2).unref Registry.empty.next) ∧
    l_ClayCmd_UserData
        { commandType := .image
          imageData := (clay_set_ptr_from_lua (.str "pix") 0 Registry.empty).1
          customData := 0, userData := 8 }
        Registry.empty =
      (.lightuserdata 8,
        { commandType := .image
          imageData := (clay_set_ptr_from_lua (.str "pix") 0 Registry.empty).1
          customData := 0, userData := 8 },
        Registry.empty) := by
  refine ⟨⟨rfl, rfl, by norm_num, rfl⟩, ?_, ?_⟩
  · exact ((payload_accessors_one_shot (.str "pix") Registry.empty
      { commandType := .image
        imageData := (clay_set_ptr_from_lua (.str "pix") 0 Registry.empty).1
        customData := 0, userData := 8 } 8 rfl rfl (by norm_num) rfl).1 rfl rfl).1
  · exact (payload_accessors_one_shot (.str "pix") Registry.empty
      { commandType := .image
        imageData := (clay_set_ptr_from_lua (.str "pix") 0 Registry.empty).1
        customData := 0, userData := 8 } 8 rfl rfl (by norm_num) rfl).2.2.2.2.2 rfl

/-! ### C7 — deterministic id hashing -/

/-- C7: `clay.id` is deterministic — two calls with the same
(label, index, isLocal) arguments, from any two binding states whose open
parents agree (the `clay__last_id` cache, registry and the rest of the state
may differ arbitrarily, as across frames), produce the same element id. -/
theorem id_hash_deterministic (labelArg indexArg isLocalArg : LuaValue)
    (st1 st2 : BindingState)
    (hpar : Clay__GetParentElementId st1.engine = Clay__GetParentElementId st2.engine) :
    (l_Clay_Id labelArg indexArg isLocalArg st1).map Prod.fst =
      (l_Clay_Id labelArg indexArg isLocalArg st2).map Prod.fst := by
  unfold l_Clay_Id
  cases labelArg <;>
    cases hidx : luaL_optinteger indexArg 0 <;>
      simp_all [Except.map, bind, Except.bind, pure, Except.pure]

/-- C7 witness: `clay.id("button", 2, true)` from two states that differ in
the `clay__last_id` cache (`st0` vs `st0b`) but share the (empty) open-parent
state yields the same id. -/
theorem id_hash_deterministic_witness :
    Clay__GetParentElementId st0.engine = Clay__GetParentElementId st0b.engine ∧
    (l_Clay_Id (.str "button") (.num 2) (.boolean true) st0).map Prod.fst =
      (l_Clay_Id (.str "button") (.num 2) (.boolean true) st0b).map Prod.fst :=
  ⟨rfl, id_hash_deterministic (.str "button") (.num 2) (.boolean true) st0 st0b rfl⟩

/-! ### C4 — scroll-offset clamping -/

/-- C4 counterexample: `setScrollOffset(id, 7, 7)` on the container with
content height 1000 and viewport height 200 (clamp range `[-800, 0]`) stores
`scrollPosition.y = 7`, outside the claimed interval — the write is not
clamped, so the invariant is not preserved by `setScrollOffset`. -/
theorem setScrollOffset_unclamped_cex :
    (l_Clay_SetScrollOffset idTable42 (.num 7) (.num 7) engine1).map
        (fun s => s.scrollContainerDatas.map (fun c => c.scrollPosition.y)) =
      .ok [7] ∧
    ¬ ((7 : Rat) ≤ 0) := by
  constructor
  · rfl
  · norm_num

/-- C4 (amended): after every `updateScrollContainers` call every scroll
container's position lies within `[-(max 0 (content - container)), 0]` per
axis; but `setScrollOffset(id, x, y)` stores the requested offset verbatim
(every container it touches ends up with exactly `(x, y)`), so that write is
not clamped — the invariant is only re-established by the next
`updateScrollContainers`.  The update clamp is modelled from spec §4.5/§8
(the engine is not in the repository); the raw write is
`l_Clay_SetScrollOffset` from the binding source. -/
theorem updateScrollContainers_clamps_and_setScrollOffset_writes_raw
    (enableArg dxArg dyArg dtArg : LuaValue) (s s' : EngineState)
    (hupd : l_Clay_UpdateScrollContainers enableArg dxArg dyArg dtArg s = .ok s')
    (idv : Nat) (x y : Rat) (cs : List ScrollContainer) (c : ScrollContainer)
    (hmem : c ∈ setScrollOffsetList idv x y cs) :
    (∀ k ∈ s'.scrollContainerDatas,
      -(max 0 (k.contentDimensions.width - k.scrollContainerDimensions.width)) ≤
          k.scrollPosition.x ∧
      k.scrollPosition.x ≤ 0 ∧
      -(max 0 (k.contentDimensions.height - k.scrollContainerDimensions.height)) ≤
          k.scrollPosition.y ∧
      k.scrollPosition.y ≤ 0) ∧
    (c ∈ cs ∨ (c.scrollPosition.x = x ∧ c.scrollPosition.y = y)) := by
  constructor
  · intro k hk
    have hs' : s' = Clay_UpdateScrollContainers (lua_toboolean enableArg)
        { x := (luaL_checknumber dxArg).toOption.getD 0
          y := (luaL_checknumber dyArg).toOption.getD 0 }
        ((luaL_checknumber dtArg).toOption.getD 0) s := by
      unfold l_Clay_UpdateScrollContainers at hupd
      cases hdx : luaL_checknumber dxArg <;> simp [hdx, bind, Except.bind] at hupd
      cases hdy : luaL_checknumber dyArg <;> simp [hdy, bind, Except.bind] at hupd
      cases hdt : luaL_checknumber dtArg <;> simp [hdt, bind, Except.bind] at hupd
      simp [pure, Except.pure] at hupd
      simp [← hupd, hdx, hdy, hdt, Except.toOption]
    subst hs'
    simp only [Clay_UpdateScrollContainers, List.mem_map] at hk
    obtain ⟨c0, _, rfl⟩ := hk
    refine ⟨(clampAxis_bounds _ _ _).1, (clampAxis_bounds _ _ _).2,
      (clampAxis_bounds _ _ _).1, (clampAxis_bounds _ _ _).2⟩
  · clear hupd
    induction cs with
    | nil => cases hmem
    | cons c0 rest ih =>
      unfold setScrollOffsetList at hmem
      by_cases h0 : c0.elementId = idv
      · rw [if_pos h0] at hmem
        rcases List.mem_cons.mp hmem with rfl | hrest
        · exact Or.inr ⟨rfl, rfl⟩
        · exact Or.inl (List.mem_cons_of_mem _ hrest)
      · rw [if_neg h0] at hmem
        rcases List.mem_cons.mp hmem with rfl | hrest
        · exact Or.inl (List.mem_cons_self _ _)
        · rcases ih hrest with h | h
          · exact Or.inl (List.mem_cons_of_mem _ h)
          · exact Or.inr h

/-- C4 witness: updating `engine1` with drag delta `(0, -2000)` saturates the
container at `y = -800`, inside the clamp range; and the raw-write half
applied to the counterexample list. -/
theorem updateScrollContainers_clamps_witness :
    l_Clay_UpdateScrollContainers (.boolean true) (.num 0) (.num (-2000)) (.num 1) engine1 =
      .ok (Clay_UpdateScrollContainers true { x := 0, y := -2000 } 1 engine1) ∧
    { sampleContainer with scrollPosition := { x := 5, y := 7 }, openThisFrame := true } ∈
      setScrollOffsetList 42 5 7 [sampleContainer] ∧
    ((Clay_UpdateScrollContainers true { x := 0, y := -2000 } 1
        engine1).scrollContainerDatas.map (fun c => c.scrollPosition.y) = [-800] ∧
      ∀ k ∈ (Clay_UpdateScrollContainers true { x := 0, y := -2000 } 1
          engine1).scrollContainerDatas,
        -(max 0 (k.contentDimensions.width - k.scrollContainerDimensions.width)) ≤
            k.scrollPosition.x ∧
        k.scrollPosition.x ≤ 0 ∧
        -(max 0 (k.contentDimensions.height - k.scrollContainerDimensions.height)) ≤
            k.scrollPosition.y ∧
        k.scrollPosition.y ≤ 0) := by
  refine ⟨?_, ?_, ?_, ?_⟩
  · norm_num [l_Clay_UpdateScrollContainers, bind, Except.bind, pure, Except.pure,
      luaL_checknumber, lua_toboolean]
  · norm_num [setScrollOffsetList, sampleContainer]
  · norm_num [Clay_UpdateScrollContainers, engine1, engine0, sampleContainer, clampAxis]
  · exact (updateScrollContainers_clamps_and_setScrollOffset_writes_raw
      (.boolean true) (.num 0) (.num (-2000)) (.num 1) engine1 _
      (by norm_num [l_Clay_UpdateScrollContainers, bind, Except.bind, pure, Except.pure,
        luaL_checknumber, lua_toboolean])
      42 5 7 [sampleContainer]
      { sampleContainer with scrollPosition := { x := 5, y := 7 }, openThisFrame := true }
      (by norm_num [setScrollOffsetList, sampleContainer])).1

/-! ### C6 — query result shapes -/

/-- C6 counterexample: with no scroll container for id 42,
`getScrollContainerData` returns `nil` — not a table, so there is no `found`
field set to `false` (while `getElementData` on the same state does return a
table with `found = false`). -/
theorem getScrollContainerData_nil_cex :
    l_Clay_GetScrollContainerData idTable42 engine0 = .ok .nil ∧
    lua_istable LuaValue.nil = false ∧
    (l_Clay_GetElementData idTable42 engine0).map
        (fun out => (lua_istable out, getField out "found")) =
      .ok (true, .boolean false) := by
  refine ⟨rfl, rfl, rfl⟩

/-- C6 (amended): `getElementData(id)` always returns a table carrying the
bounding-box fields and `found`; `getScrollContainerData(id)`, however,
returns `nil` when the id names no scroll container this frame and a table
with `found = true` (and the scroll data fields) when it does. -/
theorem query_result_shapes (idTbl : LuaValue) (s : EngineState) (eid : ElementId)
    (hid : clay_check_element_id idTbl = .ok eid) :
    ((Clay_GetScrollContainerData eid s).found = false →
      l_Clay_GetScrollContainerData idTbl s = .ok .nil) ∧
    ((Clay_GetScrollContainerData eid s).found = true →
      (l_Clay_GetScrollContainerData idTbl s).map
          (fun out => (lua_istable out, getField out "found")) =
        .ok (true, .boolean true)) ∧
    ((l_Clay_GetElementData idTbl s).map
        (fun out => (lua_istable out, getField out "x", getField out "y",
          getField out "width", getField out "height", getField out "found")) =
      .ok (true, .num (Clay_GetElementData eid s).1.x,
        .num (Clay_GetElementData eid s).1.y,
        .num (Clay_GetElementData eid s).1.width,
        .num (Clay_GetElementData eid s).1.height,
        .boolean (Clay_GetElementData eid s).2)) := by
  refine ⟨?_, ?_, ?_⟩
  · intro hf
    unfold l_Clay_GetScrollContainerData
    rw [hid]
    simp [bind, Except.bind, hf, pure, Except.pure]
  · intro hf
    unfold l_Clay_GetScrollContainerData
    rw [hid]
    simp [bind, Except.bind, hf, pure, Except.pure, Except.map, getField, lookupField,
      lua_istable]
  · unfold l_Clay_GetElementData
    rw [hid]
    simp [bind, Except.bind, pure, Except.pure, Except.map, getField, lookupField,
      lua_istable]

/-- C6 witness: id 42 on `engine1` (where it is a scroll container) yields a
table with `found = true`, and on `engine0` (where it is not) yields `nil`. -/
theorem query_result_shapes_witness :
    clay_check_element_id idTable42 =
      .ok { id := 42, offset := 0, baseId := 0 } ∧
    (Clay_GetScrollContainerData { id := 42, offset := 0, baseId := 0 } engine1).found = true ∧
    (l_Clay_GetScrollContainerData idTable42 engine1).map
        (fun out => (lua_istable out, getField out "found")) =
      .ok (true, .boolean true) ∧
    (Clay_GetScrollContainerData { id := 42, offset := 0, baseId := 0 } engine0).found = false ∧
    l_Clay_GetScrollContainerData idTable42 engine0 = .ok .nil := by
  refine ⟨rfl, rfl, ?_, rfl, ?_⟩
  · exact (query_result_shapes idTable42 engine1
      { id := 42, offset := 0, baseId := 0 } rfl).2.1 rfl
  · exact (query_result_shapes idTable42 engine0
      { id := 42, offset := 0, baseId := 0 } rfl).1 rfl

/-! ### C5 — error propagation -/

/-- C5 counterexample: `clay.createElement` re-raises a failing children
callback as a Lua error (`luaL_error`), i.e. an error does propagate as a
raised Lua error across the library's API boundary (after closing the open
element). -/
theorem createElement_raises_lua_error_cex :
    l_Clay_CreateElement idTable42 .nil (some (fun s => .error ("boom", s))) st0 =
      .error ("createElement callback failed:\nboom",
        { stMid42 with engine := Clay__CloseElement stMid42.engine }) := rfl

/-- C5 (amended): engine-reported errors are delivered through the single
synchronously installed handler `ClayErrorPrinter`, whose result is only a
formatted stderr line carrying the error text — it cannot raise a Lua
error; the binding itself, however, does raise Lua errors across the API
boundary: `createElement` re-raises any children-callback failure as
`luaL_error("createElement callback failed:...")`. -/
theorem error_callback_prints_but_binding_raises (err : Clay_ErrorData)
    (e : String) (idTbl : LuaValue) (eid : ElementId) (st : BindingState)
    (hid : clay_check_element_id idTbl = .ok eid) :
    ClayErrorPrinter err = "[Clay Error] " ++ err.errorText ++ "\n" ∧
    l_Clay_CreateElement idTbl .nil (some (fun s => .error (e, s))) st =
      .error ("createElement callback failed:\n" ++ e,
        { st with engine := (Clay__CloseElement (Clay__ConfigureOpenElement
            defaultDeclaration (Clay__OpenElementWithId eid st.engine))) }) := by
  refine ⟨rfl, ?_⟩
  unfold l_Clay_CreateElement
  rw [hid]
  simp [lua_istable]

/-- C5 witness: the handler output for a concrete duplicate-id error, and the
concrete raise from a failing callback. -/
theorem error_callback_prints_but_binding_raises_witness :
    clay_check_element_id idTable42 = .ok { id := 42, offset := 0, baseId := 0 } ∧
    ClayErrorPrinter { errorType := 2, errorText := "Duplicate ID" } =
      "[Clay Error] Duplicate ID\n" ∧
    l_Clay_CreateElement idTable42 .nil (some (fun s => .error ("oops", s))) st0 =
      .error ("createElement callback failed:\noops",
        { st0 with engine := (Clay__CloseElement (Clay__ConfigureOpenElement
            defaultDeclaration (Clay__OpenElementWithId
              { id := 42, offset := 0, baseId := 0 } st0.engine))) }) := by
  refine ⟨rfl, ?_, ?_⟩
  · exact (error_callback_prints_but_binding_raises
      { errorType := 2, errorText := "Duplicate ID" } "oops" idTable42
      { id := 42, offset := 0, baseId := 0 } st0 rfl).1
  · exact (error_callback_prints_but_binding_raises
      { errorType := 2, errorText := "Duplicate ID" } "oops" idTable42
      { id := 42, offset := 0, baseId := 0 } st0 rfl).2

/-! ### C10 — userData ignored, image/custom payloads boxed -/

/-- C10: a `userData` field that is not lightuserdata is silently ignored by
the declaration reader — the declaration's userData stays NULL and the
registry is untouched — whereas the same non-nil value under
`image.imageData` or `custom.customData` is boxed as a tagged registry
reference to the original value. -/
theorem userData_ignored_payloads_boxed (v : LuaValue) (eng : EngineState)
    (reg : Registry) (hlight : lua_islightuserdata v = false) :
    ((clay_read_element_declaration (.table [("userData", v)]) eng reg).map
        (fun p => (p.1.userData, p.2.entries)) = .ok (0, reg.entries)) ∧
    (lua_isnil v = false →
      (clay_read_element_declaration
          (.table [("image", .table [("imageData", v)])]) eng reg).map
          (fun p => (p.1.imageData, p.2.rawget reg.next)) =
        .ok (clay_tag_from_ref reg.next, v)) ∧
    (lua_isnil v = false →
      (clay_read_element_declaration
          (.table [("custom", .table [("customData", v)])]) eng reg).map
          (fun p => (p.1.customData, p.2.rawget reg.next)) =
        .ok (clay_tag_from_ref reg.next, v)) := by
  refine ⟨?_, ?_, ?_⟩ <;> cases v <;>
    simp_all [clay_read_element_declaration, readLayoutSection,
      readBackgroundColorSection, readCornerRadiusSection, readBorderSection,
      readImageSection, readAspectSection, readClipSection, readFloatingSection,
      readCustomSection, readUserDataSection, readColorTable, readFloatingConfig,
      readSizingAxisFromLua, defaultDeclaration, zeroDeclaration, CLAY_LAYOUT_DEFAULT,
      getField, lookupField,
      lua_islightuserdata, lua_isnil, lua_isnumber, Registry.ref, Registry.rawget,
      lookupRef, bind, Except.bind, pure, Except.pure, Except.map]

/-- C10 witness: the string payload `"hello"` — ignored as `userData`
(declaration userData stays 0, registry untouched), boxed under reference 1
as `image.imageData` (tagged pointer 3 on a fresh registry). -/
theorem userData_ignored_payloads_boxed_witness :
    lua_islightuserdata (.str "hello") = false ∧
    (clay_read_element_declaration (.table [("userData", .str "hello")]) engine0
        Registry.empty).map (fun p => (p.1.userData, p.2.entries)) =
      .ok (0, Registry.empty.entries) ∧
    (clay_read_element_declaration
        (.table [("image", .table [("imageData", .str "hello")])]) engine0
        Registry.empty).map (fun p => (p.1.imageData, p.2.rawget Registry.empty.next)) =
      .ok (clay_tag_from_ref Registry.empty.next, .str "hello") := by
  refine ⟨rfl, ?_, ?_⟩
  · exact (userData_ignored_payloads_boxed (.str "hello") engine0 Registry.empty rfl).1
  · exact (userData_ignored_payloads_boxed (.str "hello") engine0 Registry.empty rfl).2.1 rfl

/-! ### C8 — clip childOffset defaulting -/

/-- When clipping is requested on either axis and `childOffset` is not a
table, the clip section installs the engine's current scroll offset. -/
theorem readClipSection_defaults (tbl : LuaValue) (cfs : List (String × LuaValue))
    (eng : EngineState) (d d' : Clay_ElementDeclaration)
    (hclip : getField tbl "clip" = .table cfs)
    (hhv : (lua_toboolean (lookupField cfs "horizontal") ||
            lua_toboolean (lookupField cfs "vertical")) = true)
    (hoff : lua_istable (lookupField cfs "childOffset") = false)
    (h : readClipSection tbl eng d = .ok d') :
    d'.clip.childOffset = Clay_GetScrollOffset eng := by
  unfold readClipSection at h
  rw [hclip] at h
  cases hco : lookupField cfs "childOffset" <;>
    simp_all [lua_istable, bind, Except.bind, pure, Except.pure] <;>
    subst h <;> rfl

/-- The floating section writes only `decl.floating`. -/
theorem readFloatingSection_preserves_clip (tbl : LuaValue)
    (d d' : Clay_ElementDeclaration) (h : readFloatingSection tbl d = .ok d') :
    d'.clip = d.clip := by
  unfold readFloatingSection at h
  cases hf : getField tbl "floating" <;> rw [hf] at h
  case table ffs =>
    simp only [bind, Except.bind] at h
    cases hc : readFloatingConfig ffs d.floating <;> rw [hc] at h <;>
      simp [pure, Except.pure] at h
    case ok fl => rw [← h]
  all_goals
    simp [pure, Except.pure] at h
    rw [← h]

/-- The custom section writes only `decl.customData` (and the registry). -/
theorem readCustomSection_preserves_clip (tbl : LuaValue)
    (d : Clay_ElementDeclaration) (reg : Registry) :
    (readCustomSection tbl d reg).1.clip = d.clip := by
  unfold readCustomSection
  split
  · split <;> rfl
  · rfl

/-- The userData section writes only `decl.userData`. -/
theorem readUserDataSection_preserves_clip (tbl : LuaValue)
    (d : Clay_ElementDeclaration) :
    (readUserDataSection tbl d).clip = d.clip := by
  unfold readUserDataSection
  split <;> rfl

/-- C8: when a declaration requests clipping (`clip.horizontal` or
`clip.vertical`) and supplies no explicit `childOffset`, the configured
declaration's `clip.childOffset` is the engine's scroll offset at
configuration time — on the table path (`createElement`/`configure`, first
conjunct) and on the fluent-builder path (second conjunct). -/
theorem clip_defaults_to_scroll_offset (tbl : LuaValue)
    (cfs : List (String × LuaValue)) (eng : EngineState) (reg reg' : Registry)
    (d : Clay_ElementDeclaration)
    (hclip : getField tbl "clip" = .table cfs)
    (hhv : (lua_toboolean (lookupField cfs "horizontal") ||
            lua_toboolean (lookupField cfs "vertical")) = true)
    (hoff : lua_istable (lookupField cfs "childOffset") = false)
    (hrd : clay_read_element_declaration tbl eng reg = .ok (d, reg')) :
    d.clip.childOffset = Clay_GetScrollOffset eng ∧
    (∀ b : LuaClayElementBuilder, b.configured = false →
      (b.decl.clip.horizontal || b.decl.clip.vertical) = true →
      b.clipOffsetExplicit = false →
      (elem_builder_configure_if_needed b eng).2 =
        Clay__ConfigureOpenElement
          { b.decl with clip :=
            { b.decl.clip with childOffset := Clay_GetScrollOffset eng } } eng) := by
  constructor
  · unfold clay_read_element_declaration at hrd
    simp only [bind, Except.bind] at hrd
    cases h1 : readLayoutSection tbl defaultDeclaration with
    | error e => simp [h1] at hrd
    | ok d1 =>
    simp only [h1] at hrd
    cases h2 : readBackgroundColorSection tbl d1 with
    | error e => simp [h2] at hrd
    | ok d2 =>
    simp only [h2] at hrd
    cases h3 : readCornerRadiusSection tbl d2 with
    | error e => simp [h3] at hrd
    | ok d3 =>
    simp only [h3] at hrd
    cases h4 : readBorderSection tbl d3 with
    | error e => simp [h4] at hrd
    | ok d4 =>
    simp only [h4] at hrd
    cases h6 : readClipSection tbl eng
        (readAspectSection tbl (readImageSection tbl d4 reg).1) with
    | error e => simp [h6] at hrd
    | ok d6 =>
    simp only [h6] at hrd
    cases h7 : readFloatingSection tbl d6 with
    | error e => simp [h7] at hrd
    | ok d7 =>
    simp only [h7, pure, Except.pure, Except.ok.injEq, Prod.mk.injEq] at hrd
    have hd : d = readUserDataSection tbl
        (readCustomSection tbl d7 (readImageSection tbl d4 reg).2).1 := hrd.1.symm
    have hco := readClipSection_defaults tbl cfs eng _ d6 hclip hhv hoff h6
    rw [hd, readUserDataSection_preserves_clip, readCustomSection_preserves_clip,
      readFloatingSection_preserves_clip tbl d6 d7 h7]
    exact hco
  · intro b hconf hbv hexp
    unfold elem_builder_configure_if_needed
    rw [hconf]
    simp [hbv, hexp]

/-- C8 witness: a concrete declaration table `clip = (vertical = true)` read
while container 42 (scrolled to `(-3, -5)`) is the open element: the
resulting childOffset is `(-3, -5)`; and a concrete unconfigured builder with
vertical clipping configures the same offset into the engine. -/
theorem clip_defaults_to_scroll_offset_witness :
    getField (.table [("clip", .table [("vertical", .boolean true)])]) "clip" =
      .table [("vertical", .boolean true)] ∧
    (clay_read_element_declaration
        (.table [("clip", .table [("vertical", .boolean true)])]) engineOpen
        Registry.empty).map (fun p => p.1.clip.childOffset.x) = .ok (-3) ∧
    (clay_read_element_declaration
        (.table [("clip", .table [("vertical", .boolean true)])]) engineOpen
        Registry.empty).map (fun p => p.1.clip.childOffset.y) = .ok (-5) ∧
    ({ decl := { defaultDeclaration with clip :=
          { horizontal := false, vertical := true, childOffset := { x := 0, y := 0 } } }
       active := true, configured := false,
       clipOffsetExplicit := false : LuaClayElementBuilder }.decl.clip.vertical = true) ∧
    (elem_builder_configure_if_needed
        { decl := { defaultDeclaration with clip :=
            { horizontal := false, vertical := true, childOffset := { x := 0, y := 0 } } }
          active := true, configured := false, clipOffsetExplicit := false } engineOpen).2 =
      Clay__ConfigureOpenElement
        { defaultDeclaration with clip :=
          { horizontal := false, vertical := true,
            childOffset := Clay_GetScrollOffset engineOpen } } engineOpen := by
  obtain ⟨p, hrd⟩ : ∃ p, clay_read_element_declaration
      (.table [("clip", .table [("vertical", .boolean true)])]) engineOpen
      Registry.empty = .ok p := ⟨_, rfl⟩
  have hmain := clip_defaults_to_scroll_offset
    (.table [("clip", .table [("vertical", .boolean true)])])
    [("vertical", .boolean true)] engineOpen Registry.empty p.2 p.1
    rfl rfl rfl (by rw [hrd])
  refine ⟨rfl, ?_, ?_, rfl, ?_⟩
  · rw [hrd]
    simp only [Except.map]
    rw [hmain.1]
    rfl
  · rw [hrd]
    simp only [Except.map]
    rw [hmain.1]
    rfl
  · exact hmain.2
      { decl := { defaultDeclaration with clip :=
          { horizontal := false, vertical := true, childOffset := { x := 0, y := 0 } } }
        active := true, configured := false, clipOffsetExplicit := false }
      rfl rfl rfl

/-! ### C1 — createElement vs explicit open/configure/children/close -/

/-- C1 counterexample: with a children callback that raises, the two calling
conventions differ — `createElement` closes the element (open-stack depth 0
in the raised state) and re-raises the wrapped message
`"createElement callback failed:..."`, while the explicit sequence
propagates the raw raise with the element still open (depth 1) — so the two
are not equal for every children callback. -/
theorem createElement_raising_children_cex :
    l_Clay_CreateElement idTable42 .nil (some (fun s => .error ("boom", s))) st0 =
      .error ("createElement callback failed:\nboom",
        { stMid42 with engine := Clay__CloseElement stMid42.engine }) ∧
    (do
      let s1 ← l_Clay_OpenElement idTable42 st0
      let s2 ← l_Clay_ConfigureElement .nil s1
      let s3 ← runChildren (some (fun s => .error ("boom", s))) s2
      pure (l_Clay_CloseElement s3)) = .error ("boom", stMid42) ∧
    ({ stMid42 with
        engine := Clay__CloseElement stMid42.engine }).engine.openStack.length = 0 ∧
    stMid42.engine.openStack.length = 1 ∧
    l_Clay_CreateElement idTable42 .nil (some (fun s => .error ("boom", s))) st0 ≠
      (do
        let s1 ← l_Clay_OpenElement idTable42 st0
        let s2 ← l_Clay_ConfigureElement .nil s1
        let s3 ← runChildren (some (fun s => .error ("boom", s))) s2
        pure (l_Clay_CloseElement s3)) := by
  refine ⟨rfl, rfl, rfl, rfl, ?_⟩
  intro h
  have hlen : (0 : Nat) = 1 := congrArg
    (fun r : Except LuaRaise BindingState =>
      match r with
      | .error (_, s) => s.engine.openStack.length
      | .ok _ => 99) h
  exact absurd hlen (by norm_num)

/-- C1 (amended): when the children callback returns normally,
`clay.createElement(id, decl, fn)` is the same state transformation as the
explicit sequence `open(id); configure(decl); fn(); close()` — in particular
both paths open the element before the declaration table is read, so the
clip-offset default (`Clay_GetScrollOffset`) is sampled in the same engine
state.  When the callback raises, the two conventions diverge:
`createElement` closes the open element and re-raises the error wrapped as
`"createElement callback failed:..."`, while the explicit sequence
propagates the raw raise with the element still open. -/
theorem createElement_manual_equiv_and_raise_divergence
    (idTbl declArg : LuaValue)
    (f : Option (BindingState → Except LuaRaise BindingState)) (st : BindingState) :
    ((∀ s, ∃ s', runChildren f s = .ok s') →
      l_Clay_CreateElement idTbl declArg f st =
        (do
          let s1 ← l_Clay_OpenElement idTbl st
          let s2 ← l_Clay_ConfigureElement declArg s1
          let s3 ← runChildren f s2
          pure (l_Clay_CloseElement s3))) ∧
    (∀ s2 g e s3,
      (do
        let s1 ← l_Clay_OpenElement idTbl st
        l_Clay_ConfigureElement declArg s1) = .ok s2 →
      f = some g → g s2 = .error (e, s3) →
      l_Clay_CreateElement idTbl declArg f st =
        .error ("createElement callback failed:\n" ++ e,
          { s3 with engine := Clay__CloseElement s3.engine }) ∧
      (do
        let s1 ← l_Clay_OpenElement idTbl st
        let s2m ← l_Clay_ConfigureElement declArg s1
        let s3m ← runChildren f s2m
        pure (l_Clay_CloseElement s3m)) = .error (e, s3)) := by
  constructor
  · intro hf
    unfold l_Clay_CreateElement l_Clay_OpenElement l_Clay_ConfigureElement
      l_Clay_CloseElement
    simp only [bind, Except.bind]
    cases hid : clay_check_element_id idTbl with
    | error e => rfl
    | ok eid =>
    cases ht : lua_istable declArg
    case false =>
      obtain ⟨s3, hs3⟩ := hf { st with engine := (Clay__ConfigureOpenElement
        defaultDeclaration (Clay__OpenElementWithId eid st.engine)) }
      unfold runChildren at hs3 ⊢
      cases f with
      | none => simp_all [pure, Except.pure]
      | some g => simp_all [pure, Except.pure]
    case true =>
      cases hrd : clay_read_element_declaration declArg
          (Clay__OpenElementWithId eid st.engine) st.registry with
      | error e => simp_all [bind, Except.bind, pure, Except.pure]
      | ok pr =>
      obtain ⟨s3, hs3⟩ := hf { st with
        engine := (Clay__ConfigureOpenElement pr.1 (Clay__OpenElementWithId eid st.engine))
        registry := pr.2 }
      unfold runChildren at hs3 ⊢
      cases f with
      | none => simp_all [pure, Except.pure]
      | some g => simp_all [pure, Except.pure]
  · rintro s2 g e s3 hpre rfl hg
    unfold l_Clay_OpenElement l_Clay_ConfigureElement at hpre
    simp only [bind, Except.bind] at hpre
    unfold l_Clay_CreateElement l_Clay_OpenElement l_Clay_ConfigureElement
      l_Clay_CloseElement runChildren
    simp only [bind, Except.bind]
    cases hid : clay_check_element_id idTbl with
    | error e0 => rw [hid] at hpre; exact absurd hpre (by simp)
    | ok eid =>
    rw [hid] at hpre
    simp only [] at hpre
    cases ht : lua_istable declArg
    case false =>
      rw [ht] at hpre
      simp only [Bool.false_eq_true, if_false, Except.ok.injEq] at hpre
      subst hpre
      simp [hg]
    case true =>
      rw [ht] at hpre
      simp only [if_true] at hpre
      cases hrd : clay_read_element_declaration declArg
          (Clay__OpenElementWithId eid st.engine) st.registry with
      | error e1 => rw [hrd] at hpre; exact absurd hpre (by simp)
      | ok pr =>
      rw [hrd] at hpre
      simp only [Except.ok.injEq] at hpre
      subst hpre
      simp [hrd, hg]

/-- C1 witness: a concrete succeeding run (id 42, a declaration table with a
background colour, a children callback that returns its state) matches the
explicit sequence; and a concrete raising run through the divergence half —
hypotheses discharged at `stMid42`. -/
theorem createElement_manual_equiv_and_raise_divergence_witness :
    runChildren (some (fun s => .ok s)) st0 = .ok st0 ∧
    l_Clay_CreateElement idTable42
        (.table [("backgroundColor", .table [("r", .num 255)])])
        (some (fun s => .ok s)) st0 =
      (do
        let s1 ← l_Clay_OpenElement idTable42 st0
        let s2 ← l_Clay_ConfigureElement
          (.table [("backgroundColor", .table [("r", .num 255)])]) s1
        let s3 ← runChildren (some (fun s => .ok s)) s2
        pure (l_Clay_CloseElement s3)) ∧
    (do
      let s1 ← l_Clay_OpenElement idTable42 st0
      l_Clay_ConfigureElement .nil s1) = .ok stMid42 ∧
    l_Clay_CreateElement idTable42 .nil (some (fun s => .error ("kids", s))) st0 =
      .error ("createElement callback failed:\nkids",
        { stMid42 with engine := Clay__CloseElement stMid42.engine }) := by
  refine ⟨rfl, ?_, rfl, ?_⟩
  · exact (createElement_manual_equiv_and_raise_divergence idTable42
      (.table [("backgroundColor", .table [("r", .num 255)])])
      (some (fun s => .ok s)) st0).1 (fun s => ⟨s, rfl⟩)
  · exact ((createElement_manual_equiv_and_raise_divergence idTable42 .nil
      (some (fun s => .error ("kids", s))) st0).2 stMid42
      (fun s => .error ("kids", s)) "kids" stMid42 rfl rfl rfl).1

end ClayLua
